import Mathlib

/-!
Shallow embedding of the Resonate AWS FaaS adapter (`src/index.ts`): the
request pipeline of `Resonate.httpHandler`, together with the data it
exchanges with its external collaborators.  External collaborators are
modelled as parameters: `parse` stands for the JavaScript builtin
`JSON.parse` (returning `.error` where the builtin would throw), and
`engine` stands for `ResonateInner.process` of the Resonate SDK, which
fires its outcome callback exactly once per submission.  `JSON.stringify`
is modelled concretely by `Json.stringify`.  The `Math.random` suffix of
the process id is the parameter `rand`.
-/

namespace ResonateAws

/-- JavaScript values as produced by `JSON.parse`: null, booleans, numbers
(modelled as integers; no claim depends on non-integral numerics), strings,
arrays and objects (ordered field lists). -/
inductive Json where
  | null : Json
  | bool : Bool → Json
  | num : Int → Json
  | str : String → Json
  | arr : List Json → Json
  | obj : List (String × Json) → Json
deriving Repr

/-- JavaScript truthiness of a value: `null`, `false`, `0` and `""` are
falsy; every array or object is truthy. -/
def Json.truthy : Json → Bool
  | .null => false
  | .bool b => b
  | .num n => n != 0
  | .str s => !s.isEmpty
  | .arr _ => true
  | .obj _ => true

/-- First binding of a key in an object's field list (JavaScript objects
cannot carry duplicate keys, so first-match lookup is exact). -/
def lookupField : List (String × Json) → String → Option Json
  | [], _ => none
  | (k, v) :: fs, key => if k = key then some v else lookupField fs key

/-- JavaScript property access `j[key]`: `none` models `undefined`, which
is what property access yields on any non-object primitive as well as on
objects lacking the key. -/
def Json.get : Json → String → Option Json
  | .obj fs, key => lookupField fs key
  | _, _ => none

/-- Hexadecimal digit character for `n < 16`. -/
def hexDigit (n : Nat) : Char :=
  if n < 10 then Char.ofNat (48 + n) else Char.ofNat (87 + n)

/-- Escape of one character inside a JSON string literal, as performed by
`JSON.stringify`. -/
def escapeChar (c : Char) : String :=
  if c = '"' then "\\\""
  else if c = '\\' then "\\\\"
  else if c = '\n' then "\\n"
  else if c = '\r' then "\\r"
  else if c = '\t' then "\\t"
  else if c = Char.ofNat 8 then "\\b"
  else if c = Char.ofNat 12 then "\\f"
  else if c.toNat < 32 then
    "\\u00" ++ String.singleton (hexDigit (c.toNat / 16)) ++ String.singleton (hexDigit (c.toNat % 16))
  else String.singleton c

/-- Escape of a whole JSON string body. -/
def escapeString (s : String) : String :=
  String.join (s.toList.map escapeChar)

mutual

/-- Model of the JavaScript builtin `JSON.stringify` on the value model:
objects and arrays serialise their entries in order, strings are quoted
and escaped. -/
def Json.stringify : Json → String
  | .null => "null"
  | .bool b => if b then "true" else "false"
  | .num n => toString n
  | .str s => "\"" ++ escapeString s ++ "\""
  | .arr xs => "[" ++ stringifyArr xs ++ "]"
  | .obj fs => "\x7b" ++ stringifyObj fs ++ "\x7d"

/-- Comma-separated serialisation of array elements. -/
def stringifyArr : List Json → String
  | [] => ""
  | [x] => Json.stringify x
  | x :: xs => Json.stringify x ++ "," ++ stringifyArr xs

/-- Comma-separated serialisation of object fields. -/
def stringifyObj : List (String × Json) → String
  | [] => ""
  | [(k, v)] => "\"" ++ escapeString k ++ "\":" ++ Json.stringify v
  | (k, v) :: fs => "\"" ++ escapeString k ++ "\":" ++ Json.stringify v ++ "," ++ stringifyObj fs

end

/-- The inbound Lambda Function URL event, restricted to the fields the
handler reads: `requestContext.http.method`, the header map, the raw
body (`none` models an absent body), and `requestContext.http.path`
(`none` models `undefined`). -/
structure InvocationRequest where
  method : String
  headers : List (String × String)
  body : Option String
  path : Option String

/-- The `LambdaFunctionURLResult` value the handler returns: a status code
and a serialised JSON body. -/
structure LambdaFunctionURLResult where
  statusCode : Nat
  body : String
deriving DecidableEq, Repr

/-- The task handed to the engine, line 136 of the source:
`const task: Task = \x7b kind: "unclaimed", task: body.task \x7d`. -/
structure EngineTask where
  kind : String
  task : Json

/-- Data of the `HttpNetwork` constructed on lines 113–118: the timeout,
the coordination-server url taken from `body.href.base` (`none` models
`undefined`), and the verbose flag.  The empty static header map is
omitted. -/
structure NetworkConfig where
  timeout : Nat
  url : Option Json
  verbose : Bool

/-- Data of the `ResonateInner` constructed on lines 120–133: the three
addresses, the network, the process id, the ttl, and the verbose flag.
The external collaborator objects without data content in this model
(clock, dependencies, handler, heartbeat, registry) are omitted. -/
structure SessionConfig where
  anycastNoPreference : String
  anycastPreference : String
  network : NetworkConfig
  pid : String
  ttl : Nat
  unicast : String
  verbose : Bool

/-- The status object delivered to the processing callback by the SDK:
its `kind` discriminator and the `promise.value` read in the completed
branch (line 157). -/
structure EngineStatus where
  kind : String
  promiseValue : Json

/-- The pair of arguments `(error, status)` the engine passes to its
outcome callback; `none` models `undefined`. -/
structure EngineOutcome where
  error : Option Json
  status : Option EngineStatus

/-- Instrumented result of one handler run: the transport response and the
list of `(session, task)` submissions made to the engine. -/
structure HandlerOutput where
  response : LambdaFunctionURLResult
  calls : List (SessionConfig × EngineTask)

/-- Truthiness of a possibly-undefined string, as tested by
`!proto || !host` on line 74: `undefined` and `""` are falsy. -/
def optStrFalsy : Option String → Bool
  | none => true
  | some s => s.isEmpty

/-- Truthiness of a possibly-undefined value, as tested by `!body.task`. -/
def optTruthy : Option Json → Bool
  | none => false
  | some j => j.truthy

/-- Strict equality `v === "s"` between a possibly-undefined value and a
string literal, as on line 100. -/
def isTypeStr (j : Option Json) (s : String) : Bool :=
  match j with
  | some (.str t) => t = s
  | _ => false

/-- Exact-key lookup in the event's header map, modelling the property
accesses `event.headers["x-forwarded-proto"]` and `event.headers.host`
on lines 72–73.  JavaScript property access is case-sensitive. -/
def lookupHeader : List (String × String) → String → Option String
  | [], _ => none
  | (k, v) :: hs, key => if k = key then some v else lookupHeader hs key

/-- The chained property access `body.href.base` on line 116.  Reading
`.base` throws a `TypeError` when `body.href` is `undefined` or `null`;
on any other value it yields `body.href.base` (possibly `undefined`). -/
def hrefBase (body : Json) : Except String (Option Json)  :=
  match body.get "href" with
  | none => .error "TypeError: Cannot read properties of undefined (reading base)"
  | some .null => .error "TypeError: Cannot read properties of null (reading base)"
  | some href => .ok (href.get "base")

/-- Serialisation shape of the SDK status object inside the diagnostic
`details`; the exact shape is owned by the SDK and no claim depends on
it. -/
def statusJson (st : EngineStatus) : Json :=
  .obj [("kind", .str st.kind), ("promise", .obj [("value", st.promiseValue)])]

/-- The `details: \x7b error, status \x7d` object of the 500 branch on
line 146; `JSON.stringify` drops properties whose value is `undefined`. -/
def detailsJson (error : Option Json) (status : Option EngineStatus) : Json :=
  .obj
    ((match error with | some e => [("error", e)] | none => []) ++
     (match status with | some st => [("status", statusJson st)] | none => []))

/-- Body of the 500 response built on lines 143–148. -/
def taskProcessingFailedBody (error : Option Json) (status : Option EngineStatus) : String :=
  Json.stringify (.obj [("error", .str "Task processing failed"), ("details", detailsJson error status)])

/-- Body of the catch-all 500 response on lines 175–180,
`\x7b error: Handler failed: ... \x7d`, for a thrown error whose string
form is `msg`. -/
def handlerFailedBody (msg : String) : String :=
  Json.stringify (.obj [("error", .str ("Handler failed: " ++ msg))])

/-- The outcome callback body of lines 140–170: a truthy `error` or an
absent `status` yields the 500 diagnostic response; a `completed` status
yields the 200 completed response carrying `status.promise.value`; every
other status kind yields the 200 suspended response. -/
def mapOutcome (url : String) (outcome : EngineOutcome) : LambdaFunctionURLResult :=
  if optTruthy outcome.error then
    ⟨500, taskProcessingFailedBody outcome.error outcome.status⟩
  else
    match outcome.status with
    | none => ⟨500, taskProcessingFailedBody outcome.error none⟩
    | some status =>
      if status.kind = "completed" then
        ⟨200, Json.stringify (.obj
          [("status", .str "completed"), ("result", status.promiseValue), ("requestUrl", .str url)])⟩
      else
        ⟨200, Json.stringify (.obj
          [("status", .str "suspended"), ("requestUrl", .str url)])⟩

/-- The worker-identity and network data of lines 112–133, for invocation
url `url` and coordination base `base`: a fresh pid `pid-` ++ rand, a ttl
of 30 s, a network timeout of 60 s, and all three addresses set to
`url`. -/
def sessionConfigOf (verbose : Bool) (rand : String) (url : String) (base : Option Json) :
    SessionConfig :=
  { anycastNoPreference := url
    anycastPreference := url
    network := { timeout := 60 * 1000, url := base, verbose := verbose }
    pid := "pid-" ++ rand
    ttl := 30 * 1000
    unicast := url
    verbose := verbose }

/-- The handler returned by `Resonate.httpHandler()` (lines 57–183),
instrumented with the list of engine submissions.  `parse` models
`JSON.parse`, `engine` models `ResonateInner.process` delivering exactly
one callback outcome per submission, `rand` the random pid suffix.
Exceptions (`JSON.parse` failure, the `body.href.base` access on a
missing `href`) are caught by the outermost catch and become 500
responses. -/
def httpHandler (verbose : Bool) (parse : String → Except String Json)
    (engine : SessionConfig → EngineTask → EngineOutcome) (rand : String)
    (event : InvocationRequest) : HandlerOutput :=
  if event.method ≠ "POST" then
    ⟨⟨405, Json.stringify (.obj [("error", .str "Method not allowed. Use POST.")])⟩, []⟩
  else
    let proto := lookupHeader event.headers "x-forwarded-proto"
    let host := lookupHeader event.headers "host"
    if optStrFalsy proto || optStrFalsy host then
      ⟨⟨400, Json.stringify (.obj
        [("error", .str "Missing required headers: x-forwarded-proto or host.")])⟩, []⟩
    else
      let url := proto.getD "" ++ "://" ++ host.getD "" ++ event.path.getD ""
      match event.body with
      | none => ⟨⟨400, Json.stringify (.obj [("error", .str "Request body missing.")])⟩, []⟩
      | some rawBody =>
        if rawBody.isEmpty then
          ⟨⟨400, Json.stringify (.obj [("error", .str "Request body missing.")])⟩, []⟩
        else
          match parse rawBody with
          | .error e => ⟨⟨500, handlerFailedBody e⟩, []⟩
          | .ok body =>
            if !body.truthy
                || !(isTypeStr (body.get "type") "invoke" || isTypeStr (body.get "type") "resume")
                || !optTruthy (body.get "task") then
              ⟨⟨400, Json.stringify (.obj
                [("error", .str "Request body must contain \"type\" and \"task\" for Resonate invocation.")])⟩, []⟩
            else
              match hrefBase body with
              | .error e => ⟨⟨500, handlerFailedBody e⟩, []⟩
              | .ok base =>
                let cfg := sessionConfigOf verbose rand url base
                let task : EngineTask := ⟨"unclaimed", (body.get "task").getD .null⟩
                ⟨mapOutcome url (engine cfg task), [(cfg, task)]⟩

/-- A well-formed invocation payload, matching the README example:
type `invoke`, a coordination-server `href.base`, and an opaque task. -/
def validBodyJson : Json :=
  .obj [("type", .str "invoke"),
        ("href", .obj [("base", .str "https://coord.example.com")]),
        ("task", .obj [("name", .str "hello")])]

/-- A payload that passes the type/task validation but carries no `href`
field at all. -/
def noHrefBodyJson : Json :=
  .obj [("type", .str "invoke"), ("task", .obj [("name", .str "hello")])]

/-- Concrete stand-in for `JSON.parse`, agreeing with the builtin on every
input exercised by the concrete theorems: it recovers the two payloads
above from their own serialisations and fails on everything else (the
other body used concretely, `not-json`, is indeed invalid JSON). -/
def parseStub (s : String) : Except String Json :=
  if s = Json.stringify validBodyJson then .ok validBodyJson
  else if s = Json.stringify noHrefBodyJson then .ok noHrefBodyJson
  else .error "SyntaxError: Unexpected token"

/-- Stub engine whose single callback reports a completed status with
value `Hello, World!`. -/
def engineCompleted : SessionConfig → EngineTask → EngineOutcome :=
  fun _ _ => ⟨none, some ⟨"completed", .str "Hello, World!"⟩⟩

/-- Stub engine whose single callback reports an error object and no
status. -/
def engineError : SessionConfig → EngineTask → EngineOutcome :=
  fun _ _ => ⟨some (.obj [("message", .str "boom")]), none⟩

/-- Stub engine whose single callback reports, without an error, a status
whose kind is neither `completed` nor `suspended`. -/
def engineOther : SessionConfig → EngineTask → EngineOutcome :=
  fun _ _ => ⟨none, some ⟨"claimed", .null⟩⟩

/-- A fully valid POST event carrying `validBodyJson`. -/
def validEvent : InvocationRequest :=
  { method := "POST"
    headers := [("x-forwarded-proto", "https"), ("host", "fn.example.com")]
    body := some (Json.stringify validBodyJson)
    path := some "/" }

/-- A value reachable by property lookup makes its carrier an object,
hence truthy. -/
theorem Json.truthy_of_get {j v : Json} {k : String} (h : j.get k = some v) :
    j.truthy = true := by
  cases j <;> simp [Json.get, Json.truthy] at h ⊢

/-- Pipeline lemma: on a request that passes every check of lines 64–110
and whose payload carries an object `href`, the handler submits exactly
one unclaimed task carrying the payload's `task` value to the engine,
configured by `sessionConfigOf`, and returns the `mapOutcome` image of
the engine's single callback outcome. -/
theorem httpHandler_valid_eq
    (verbose : Bool) (parse : String → Except String Json)
    (engine : SessionConfig → EngineTask → EngineOutcome) (rand : String)
    (event : InvocationRequest) (p q s : String) (body t : Json)
    (hfs : List (String × Json))
    (hm : event.method = "POST")
    (hp : lookupHeader event.headers "x-forwarded-proto" = some p) (hp0 : p.isEmpty = false)
    (hq : lookupHeader event.headers "host" = some q) (hq0 : q.isEmpty = false)
    (hb : event.body = some s) (hs : s.isEmpty = false)
    (hparse : parse s = .ok body)
    (hty : body.get "type" = some (.str "invoke") ∨ body.get "type" = some (.str "resume"))
    (htask : body.get "task" = some t) (ht : t.truthy = true)
    (hhref : body.get "href" = some (.obj hfs)) :
    httpHandler verbose parse engine rand event =
      ⟨mapOutcome (p ++ "://" ++ q ++ event.path.getD "")
          (engine
            (sessionConfigOf verbose rand (p ++ "://" ++ q ++ event.path.getD "")
              (lookupField hfs "base"))
            ⟨"unclaimed", t⟩),
        [(sessionConfigOf verbose rand (p ++ "://" ++ q ++ event.path.getD "")
            (lookupField hfs "base"), ⟨"unclaimed", t⟩)]⟩ := by
  have hbt : body.truthy = true := Json.truthy_of_get htask
  have hty2 : (isTypeStr (body.get "type") "invoke" || isTypeStr (body.get "type") "resume") = true := by
    rcases hty with h | h <;> rw [h] <;> simp [isTypeStr]
  have hhb : hrefBase body = .ok (lookupField hfs "base") := by
    unfold hrefBase
    rw [hhref]
    rfl
  simp [httpHandler, hm, hp, hq, hp0, hq0, hb, hs, hparse, hbt, hty2, htask, ht,
    hhb, optTruthy, optStrFalsy]

/-- C1 (counterexample): a POST request with both required headers and the
non-empty body `not-json`, which fails to parse, is answered with status
500 — not a 400-class client error as the claim states. -/
theorem c1_counterexample :
    (httpHandler false parseStub engineCompleted "r"
        ⟨"POST", [("x-forwarded-proto", "https"), ("host", "fn.example.com")],
          some "not-json", some "/"⟩).response.statusCode = 500 ∧
    ¬ (400 ≤ (httpHandler false parseStub engineCompleted "r"
        ⟨"POST", [("x-forwarded-proto", "https"), ("host", "fn.example.com")],
          some "not-json", some "/"⟩).response.statusCode ∧
       (httpHandler false parseStub engineCompleted "r"
        ⟨"POST", [("x-forwarded-proto", "https"), ("host", "fn.example.com")],
          some "not-json", some "/"⟩).response.statusCode < 500) := by
  exact ⟨rfl, by decide⟩

/-- C1 (amended): for every POST request with both required headers
present and non-empty whose body is non-empty but fails to parse, the
adapter returns the catch-all 500 server error carrying the parse
exception, and the engine is never invoked. -/
theorem c1_parse_failure_is_500
    (verbose : Bool) (parse : String → Except String Json)
    (engine : SessionConfig → EngineTask → EngineOutcome) (rand : String)
    (event : InvocationRequest) (p q s e : String)
    (hm : event.method = "POST")
    (hp : lookupHeader event.headers "x-forwarded-proto" = some p) (hp0 : p.isEmpty = false)
    (hq : lookupHeader event.headers "host" = some q) (hq0 : q.isEmpty = false)
    (hb : event.body = some s) (hs : s.isEmpty = false)
    (hparse : parse s = .error e) :
    (httpHandler verbose parse engine rand event).response = ⟨500, handlerFailedBody e⟩ ∧
    (httpHandler verbose parse engine rand event).calls = [] := by
  constructor <;>
    simp [httpHandler, hm, hp, hq, hp0, hq0, hb, hs, hparse, optStrFalsy]

/-- C1 (witness): the amended theorem applied to the concrete request of
the counterexample. -/
theorem c1_witness :
    (httpHandler false parseStub engineCompleted "r"
        ⟨"POST", [("x-forwarded-proto", "https"), ("host", "fn.example.com")],
          some "not-json", some "/"⟩).response =
      ⟨500, handlerFailedBody "SyntaxError: Unexpected token"⟩ ∧
    (httpHandler false parseStub engineCompleted "r"
        ⟨"POST", [("x-forwarded-proto", "https"), ("host", "fn.example.com")],
          some "not-json", some "/"⟩).calls = [] :=
  c1_parse_failure_is_500 false parseStub engineCompleted "r"
    ⟨"POST", [("x-forwarded-proto", "https"), ("host", "fn.example.com")],
      some "not-json", some "/"⟩
    "https" "fn.example.com" "not-json" "SyntaxError: Unexpected token"
    rfl rfl rfl rfl rfl rfl rfl rfl

/-- C2 (counterexample): a POST request whose parseable body has type
`invoke` and a task but no `href` field is answered with status 500 (the
`body.href.base` access throws and the outer catch converts it) — not the
400-class rejection the claim states. -/
theorem c2_counterexample :
    (httpHandler false parseStub engineCompleted "r"
        ⟨"POST", [("x-forwarded-proto", "https"), ("host", "fn.example.com")],
          some (Json.stringify noHrefBodyJson), some "/"⟩).response.statusCode = 500 ∧
    ¬ (400 ≤ (httpHandler false parseStub engineCompleted "r"
        ⟨"POST", [("x-forwarded-proto", "https"), ("host", "fn.example.com")],
          some (Json.stringify noHrefBodyJson), some "/"⟩).response.statusCode ∧
       (httpHandler false parseStub engineCompleted "r"
        ⟨"POST", [("x-forwarded-proto", "https"), ("host", "fn.example.com")],
          some (Json.stringify noHrefBodyJson), some "/"⟩).response.statusCode < 500) := by
  exact ⟨rfl, by decide⟩

/-- C2 (amended): for every POST request with required headers and a
parseable body whose type is `invoke` or `resume` and whose task is
present and truthy, but whose `href` field is absent or null, the
`body.href.base` access throws, the outer catch answers with status 500,
and the engine is never invoked; the structural validation itself never
inspects `href.base`. -/
theorem c2_missing_href_is_500
    (verbose : Bool) (parse : String → Except String Json)
    (engine : SessionConfig → EngineTask → EngineOutcome) (rand : String)
    (event : InvocationRequest) (p q s : String) (body t : Json)
    (hm : event.method = "POST")
    (hp : lookupHeader event.headers "x-forwarded-proto" = some p) (hp0 : p.isEmpty = false)
    (hq : lookupHeader event.headers "host" = some q) (hq0 : q.isEmpty = false)
    (hb : event.body = some s) (hs : s.isEmpty = false)
    (hparse : parse s = .ok body)
    (hty : body.get "type" = some (.str "invoke") ∨ body.get "type" = some (.str "resume"))
    (htask : body.get "task" = some t) (ht : t.truthy = true)
    (hhref : body.get "href" = none ∨ body.get "href" = some .null) :
    (httpHandler verbose parse engine rand event).response.statusCode = 500 ∧
    (httpHandler verbose parse engine rand event).calls = [] := by
  have hbt : body.truthy = true := Json.truthy_of_get htask
  have hty2 : (isTypeStr (body.get "type") "invoke" || isTypeStr (body.get "type") "resume") = true := by
    rcases hty with h | h <;> rw [h] <;> simp [isTypeStr]
  have hhb : hrefBase body = .error "TypeError: Cannot read properties of undefined (reading base)" ∨
      hrefBase body = .error "TypeError: Cannot read properties of null (reading base)" := by
    rcases hhref with h | h
    · exact Or.inl (by unfold hrefBase; rw [h])
    · exact Or.inr (by unfold hrefBase; rw [h])
  rcases hhb with h | h <;> constructor <;>
    simp [httpHandler, hm, hp, hq, hp0, hq0, hb, hs, hparse, hbt, hty2, htask, ht, h,
      optTruthy, optStrFalsy]

/-- C2 (witness): the amended theorem applied to the concrete request of
the counterexample. -/
theorem c2_witness :
    (httpHandler false parseStub engineCompleted "r"
        ⟨"POST", [("x-forwarded-proto", "https"), ("host", "fn.example.com")],
          some (Json.stringify noHrefBodyJson), some "/"⟩).response.statusCode = 500 ∧
    (httpHandler false parseStub engineCompleted "r"
        ⟨"POST", [("x-forwarded-proto", "https"), ("host", "fn.example.com")],
          some (Json.stringify noHrefBodyJson), some "/"⟩).calls = [] :=
  c2_missing_href_is_500 false parseStub engineCompleted "r"
    ⟨"POST", [("x-forwarded-proto", "https"), ("host", "fn.example.com")],
      some (Json.stringify noHrefBodyJson), some "/"⟩
    "https" "fn.example.com" (Json.stringify noHrefBodyJson) noHrefBodyJson
    (.obj [("name", .str "hello")])
    rfl rfl rfl rfl rfl rfl rfl
    (by unfold parseStub; rw [if_neg (by decide), if_pos rfl])
    (Or.inl rfl) rfl rfl (Or.inl rfl)

/-- C3 (counterexample): a POST request carrying the host header only
under the casing `Host` (and the protocol header only as
`X-Forwarded-Proto`) is rejected with the missing-headers 400 response —
the lookup does not treat a differently-cased key as present. -/
theorem c3_counterexample :
    lookupHeader [("X-Forwarded-Proto", "https"), ("Host", "fn.example.com")] "Host" =
      some "fn.example.com" ∧
    (httpHandler false parseStub engineCompleted "r"
        ⟨"POST", [("X-Forwarded-Proto", "https"), ("Host", "fn.example.com")],
          some "x", some "/"⟩).response =
      ⟨400, "\x7b\"error\":\"Missing required headers: x-forwarded-proto or host.\"\x7d"⟩ ∧
    (httpHandler false parseStub engineCompleted "r"
        ⟨"POST", [("X-Forwarded-Proto", "https"), ("Host", "fn.example.com")],
          some "x", some "/"⟩).calls = [] := by
  exact ⟨rfl, rfl, rfl⟩

/-- C3 (amended): the header lookup is an exact, case-sensitive lookup of
the lowercase keys `x-forwarded-proto` and `host`: whenever the exact key
`host` is absent, the request is rejected with the missing-headers 400
and the engine is never invoked, even if a header is present under the
casing `Host`. -/
theorem c3_lookup_is_case_sensitive
    (verbose : Bool) (parse : String → Except String Json)
    (engine : SessionConfig → EngineTask → EngineOutcome) (rand : String)
    (event : InvocationRequest) (v : String)
    (hm : event.method = "POST")
    (hhost : lookupHeader event.headers "host" = none)
    (hcased : ("Host", v) ∈ event.headers) :
    (httpHandler verbose parse engine rand event).response =
      ⟨400, "\x7b\"error\":\"Missing required headers: x-forwarded-proto or host.\"\x7d"⟩ ∧
    (httpHandler verbose parse engine rand event).calls = [] := by
  constructor <;> simp [httpHandler, hm, hhost, optStrFalsy] <;> rfl

/-- C3 (witness): the amended theorem applied to the concrete request of
the counterexample. -/
theorem c3_witness :
    (httpHandler false parseStub engineCompleted "r"
        ⟨"POST", [("X-Forwarded-Proto", "https"), ("Host", "fn.example.com")],
          some "x", some "/"⟩).response =
      ⟨400, "\x7b\"error\":\"Missing required headers: x-forwarded-proto or host.\"\x7d"⟩ ∧
    (httpHandler false parseStub engineCompleted "r"
        ⟨"POST", [("X-Forwarded-Proto", "https"), ("Host", "fn.example.com")],
          some "x", some "/"⟩).calls = [] :=
  c3_lookup_is_case_sensitive false parseStub engineCompleted "r"
    ⟨"POST", [("X-Forwarded-Proto", "https"), ("Host", "fn.example.com")],
      some "x", some "/"⟩
    "fn.example.com" rfl rfl (by decide)

/-- C7: for every request whose HTTP method is not POST, the adapter
returns status 405 with exactly the body
`\x7b"error":"Method not allowed. Use POST."\x7d` and never invokes the
engine. -/
theorem c7_non_post_is_405
    (verbose : Bool) (parse : String → Except String Json)
    (engine : SessionConfig → EngineTask → EngineOutcome) (rand : String)
    (event : InvocationRequest)
    (h : event.method ≠ "POST") :
    (httpHandler verbose parse engine rand event).response =
      ⟨405, "\x7b\"error\":\"Method not allowed. Use POST.\"\x7d"⟩ ∧
    (httpHandler verbose parse engine rand event).calls = [] := by
  constructor <;> simp [httpHandler, h] <;> rfl

/-- C7 (witness): the theorem applied to a concrete GET request. -/
theorem c7_witness :
    (httpHandler false parseStub engineCompleted "r" ⟨"GET", [], none, none⟩).response =
      ⟨405, "\x7b\"error\":\"Method not allowed. Use POST.\"\x7d"⟩ ∧
    (httpHandler false parseStub engineCompleted "r" ⟨"GET", [], none, none⟩).calls = [] :=
  c7_non_post_is_405 false parseStub engineCompleted "r" ⟨"GET", [], none, none⟩ (by decide)

/-- C8: for every POST request missing the exact `x-forwarded-proto`
header or the exact `host` header, the adapter returns status 400 with
the missing-headers body and never invokes the engine. -/
theorem c8_missing_headers_400
    (verbose : Bool) (parse : String → Except String Json)
    (engine : SessionConfig → EngineTask → EngineOutcome) (rand : String)
    (event : InvocationRequest)
    (hm : event.method = "POST")
    (h : lookupHeader event.headers "x-forwarded-proto" = none ∨
         lookupHeader event.headers "host" = none) :
    (httpHandler verbose parse engine rand event).response =
      ⟨400, "\x7b\"error\":\"Missing required headers: x-forwarded-proto or host.\"\x7d"⟩ ∧
    (httpHandler verbose parse engine rand event).calls = [] := by
  rcases h with h | h <;> constructor <;>
    simp [httpHandler, hm, h, optStrFalsy] <;> rfl

/-- C8 (witness): the theorem applied to a concrete POST request carrying
only the forwarded-protocol header. -/
theorem c8_witness :
    (httpHandler false parseStub engineCompleted "r"
        ⟨"POST", [("x-forwarded-proto", "https")], none, none⟩).response =
      ⟨400, "\x7b\"error\":\"Missing required headers: x-forwarded-proto or host.\"\x7d"⟩ ∧
    (httpHandler false parseStub engineCompleted "r"
        ⟨"POST", [("x-forwarded-proto", "https")], none, none⟩).calls = [] :=
  c8_missing_headers_400 false parseStub engineCompleted "r"
    ⟨"POST", [("x-forwarded-proto", "https")], none, none⟩
    rfl (Or.inr rfl)

/-- C4: for every request passing validation whose payload has type
`invoke` or `resume`, a task, and a present `href.base`, the adapter
submits to the engine exactly one task, in the unclaimed state, carrying
the payload's task value unchanged, and produces exactly one response,
namely the `mapOutcome` image of the engine's single callback outcome. -/
theorem c4_single_submission
    (verbose : Bool) (parse : String → Except String Json)
    (engine : SessionConfig → EngineTask → EngineOutcome) (rand : String)
    (event : InvocationRequest) (p q s : String) (body t base : Json)
    (hfs : List (String × Json))
    (hm : event.method = "POST")
    (hp : lookupHeader event.headers "x-forwarded-proto" = some p) (hp0 : p.isEmpty = false)
    (hq : lookupHeader event.headers "host" = some q) (hq0 : q.isEmpty = false)
    (hb : event.body = some s) (hs : s.isEmpty = false)
    (hparse : parse s = .ok body)
    (hty : body.get "type" = some (.str "invoke") ∨ body.get "type" = some (.str "resume"))
    (htask : body.get "task" = some t) (ht : t.truthy = true)
    (hhref : body.get "href" = some (.obj hfs))
    (hbase : lookupField hfs "base" = some base) :
    (httpHandler verbose parse engine rand event).calls =
      [(sessionConfigOf verbose rand (p ++ "://" ++ q ++ event.path.getD "") (some base),
        ⟨"unclaimed", t⟩)] ∧
    (httpHandler verbose parse engine rand event).response =
      mapOutcome (p ++ "://" ++ q ++ event.path.getD "")
        (engine (sessionConfigOf verbose rand (p ++ "://" ++ q ++ event.path.getD "") (some base))
          ⟨"unclaimed", t⟩) := by
  have h := httpHandler_valid_eq verbose parse engine rand event p q s body t hfs
    hm hp hp0 hq hq0 hb hs hparse hty htask ht hhref
  rw [hbase] at h
  rw [h]
  exact ⟨rfl, rfl⟩

/-- C4 (witness): the theorem applied to a fully valid concrete request. -/
theorem c4_witness :
    (httpHandler false parseStub engineCompleted "r" validEvent).calls =
      [(sessionConfigOf false "r" "https://fn.example.com/"
          (some (.str "https://coord.example.com")),
        ⟨"unclaimed", .obj [("name", .str "hello")]⟩)] ∧
    (httpHandler false parseStub engineCompleted "r" validEvent).response =
      mapOutcome "https://fn.example.com/"
        (engineCompleted
          (sessionConfigOf false "r" "https://fn.example.com/"
            (some (.str "https://coord.example.com")))
          ⟨"unclaimed", .obj [("name", .str "hello")]⟩) :=
  c4_single_submission false parseStub engineCompleted "r" validEvent
    "https" "fn.example.com" (Json.stringify validBodyJson) validBodyJson
    (.obj [("name", .str "hello")]) (.str "https://coord.example.com")
    [("base", .str "https://coord.example.com")]
    rfl rfl rfl rfl rfl rfl rfl
    (by unfold parseStub; rw [if_pos rfl])
    (Or.inl rfl) rfl rfl rfl rfl

/-- C5: whenever the engine's single callback reports, without a truthy
error, a status of kind `completed` carrying value `V`, the adapter
deterministically returns status 200 with a body carrying
`status: completed`, `result: V` and the resolved invocation URL; being
an equation of a pure function of the request, the mapping is
independent of how many invocations have occurred. -/
theorem c5_completed_maps_200
    (verbose : Bool) (parse : String → Except String Json)
    (engine : SessionConfig → EngineTask → EngineOutcome) (rand : String)
    (event : InvocationRequest) (p q s : String) (body t : Json)
    (hfs : List (String × Json)) (err : Option Json) (V : Json)
    (hm : event.method = "POST")
    (hp : lookupHeader event.headers "x-forwarded-proto" = some p) (hp0 : p.isEmpty = false)
    (hq : lookupHeader event.headers "host" = some q) (hq0 : q.isEmpty = false)
    (hb : event.body = some s) (hs : s.isEmpty = false)
    (hparse : parse s = .ok body)
    (hty : body.get "type" = some (.str "invoke") ∨ body.get "type" = some (.str "resume"))
    (htask : body.get "task" = some t) (ht : t.truthy = true)
    (hhref : body.get "href" = some (.obj hfs))
    (heng : ∀ cfg tk, engine cfg tk = ⟨err, some ⟨"completed", V⟩⟩)
    (herr : optTruthy err = false) :
    (httpHandler verbose parse engine rand event).response =
      ⟨200, Json.stringify (.obj
        [("status", .str "completed"), ("result", V),
         ("requestUrl", .str (p ++ "://" ++ q ++ event.path.getD ""))])⟩ := by
  rw [httpHandler_valid_eq verbose parse engine rand event p q s body t hfs
    hm hp hp0 hq hq0 hb hs hparse hty htask ht hhref]
  rw [heng]
  simp [mapOutcome, herr]

/-- C5 (witness): the theorem applied to a concrete valid request and an
engine completing with `Hello, World!`. -/
theorem c5_witness :
    (httpHandler false parseStub engineCompleted "r" validEvent).response =
      ⟨200, Json.stringify (.obj
        [("status", .str "completed"), ("result", .str "Hello, World!"),
         ("requestUrl", .str "https://fn.example.com/")])⟩ :=
  c5_completed_maps_200 false parseStub engineCompleted "r" validEvent
    "https" "fn.example.com" (Json.stringify validBodyJson) validBodyJson
    (.obj [("name", .str "hello")]) [("base", .str "https://coord.example.com")]
    none (.str "Hello, World!")
    rfl rfl rfl rfl rfl rfl rfl
    (by unfold parseStub; rw [if_pos rfl])
    (Or.inl rfl) rfl rfl rfl (fun _ _ => rfl) rfl

/-- C6: for every validated request with protocol `p`, host `q` and path
`pth`, the single session configuration handed to the engine carries the
invocation URL `p ++ :// ++ q ++ pth` in all three addressing roles
(unicast, anycast-with-preference, anycast-without-preference). -/
theorem c6_three_roles_one_url
    (verbose : Bool) (parse : String → Except String Json)
    (engine : SessionConfig → EngineTask → EngineOutcome) (rand : String)
    (event : InvocationRequest) (p q s pth : String) (body t : Json)
    (hfs : List (String × Json))
    (hm : event.method = "POST")
    (hp : lookupHeader event.headers "x-forwarded-proto" = some p) (hp0 : p.isEmpty = false)
    (hq : lookupHeader event.headers "host" = some q) (hq0 : q.isEmpty = false)
    (hpath : event.path = some pth)
    (hb : event.body = some s) (hs : s.isEmpty = false)
    (hparse : parse s = .ok body)
    (hty : body.get "type" = some (.str "invoke") ∨ body.get "type" = some (.str "resume"))
    (htask : body.get "task" = some t) (ht : t.truthy = true)
    (hhref : body.get "href" = some (.obj hfs)) :
    (httpHandler verbose parse engine rand event).calls =
      [(sessionConfigOf verbose rand (p ++ "://" ++ q ++ pth) (lookupField hfs "base"),
        ⟨"unclaimed", t⟩)] ∧
    (sessionConfigOf verbose rand (p ++ "://" ++ q ++ pth) (lookupField hfs "base")).unicast =
      p ++ "://" ++ q ++ pth ∧
    (sessionConfigOf verbose rand (p ++ "://" ++ q ++ pth) (lookupField hfs "base")).anycastPreference =
      p ++ "://" ++ q ++ pth ∧
    (sessionConfigOf verbose rand (p ++ "://" ++ q ++ pth) (lookupField hfs "base")).anycastNoPreference =
      p ++ "://" ++ q ++ pth := by
  have h := httpHandler_valid_eq verbose parse engine rand event p q s body t hfs
    hm hp hp0 hq hq0 hb hs hparse hty htask ht hhref
  simp only [hpath, Option.getD_some] at h
  rw [h]
  exact ⟨rfl, rfl, rfl, rfl⟩

/-- C6 (witness): the theorem applied to a concrete valid request with
path `/`. -/
theorem c6_witness :
    (httpHandler false parseStub engineCompleted "r" validEvent).calls =
      [(sessionConfigOf false "r" "https://fn.example.com/"
          (lookupField [("base", .str "https://coord.example.com")] "base"),
        ⟨"unclaimed", .obj [("name", .str "hello")]⟩)] ∧
    (sessionConfigOf false "r" "https://fn.example.com/"
        (lookupField [("base", .str "https://coord.example.com")] "base")).unicast =
      "https://fn.example.com/" ∧
    (sessionConfigOf false "r" "https://fn.example.com/"
        (lookupField [("base", .str "https://coord.example.com")] "base")).anycastPreference =
      "https://fn.example.com/" ∧
    (sessionConfigOf false "r" "https://fn.example.com/"
        (lookupField [("base", .str "https://coord.example.com")] "base")).anycastNoPreference =
      "https://fn.example.com/" :=
  c6_three_roles_one_url false parseStub engineCompleted "r" validEvent
    "https" "fn.example.com" (Json.stringify validBodyJson) "/" validBodyJson
    (.obj [("name", .str "hello")]) [("base", .str "https://coord.example.com")]
    rfl rfl rfl rfl rfl rfl rfl rfl
    (by unfold parseStub; rw [if_pos rfl])
    (Or.inl rfl) rfl rfl rfl

/-- C9: whenever the engine's single callback reports a truthy error
object, or reports neither an error nor a status, the adapter returns
status 500 with the diagnostic body carrying the message
`Task processing failed` and the error/status detail. -/
theorem c9_error_maps_500
    (verbose : Bool) (parse : String → Except String Json)
    (engine : SessionConfig → EngineTask → EngineOutcome) (rand : String)
    (event : InvocationRequest) (p q s : String) (body t : Json)
    (hfs : List (String × Json)) (err : Option Json) (st : Option EngineStatus)
    (hm : event.method = "POST")
    (hp : lookupHeader event.headers "x-forwarded-proto" = some p) (hp0 : p.isEmpty = false)
    (hq : lookupHeader event.headers "host" = some q) (hq0 : q.isEmpty = false)
    (hb : event.body = some s) (hs : s.isEmpty = false)
    (hparse : parse s = .ok body)
    (hty : body.get "type" = some (.str "invoke") ∨ body.get "type" = some (.str "resume"))
    (htask : body.get "task" = some t) (ht : t.truthy = true)
    (hhref : body.get "href" = some (.obj hfs))
    (heng : ∀ cfg tk, engine cfg tk = ⟨err, st⟩)
    (hcase : optTruthy err = true ∨ (err = none ∧ st = none)) :
    (httpHandler verbose parse engine rand event).response =
      ⟨500, taskProcessingFailedBody err st⟩ := by
  rw [httpHandler_valid_eq verbose parse engine rand event p q s body t hfs
    hm hp hp0 hq hq0 hb hs hparse hty htask ht hhref]
  rw [heng]
  rcases hcase with h | ⟨h1, h2⟩
  · simp [mapOutcome, h]
  · subst h1; subst h2; simp [mapOutcome, optTruthy]

/-- C9 (witness): the theorem applied to a concrete valid request and an
engine whose callback reports an error object and no status. -/
theorem c9_witness :
    (httpHandler false parseStub engineError "r" validEvent).response =
      ⟨500, taskProcessingFailedBody (some (.obj [("message", .str "boom")])) none⟩ :=
  c9_error_maps_500 false parseStub engineError "r" validEvent
    "https" "fn.example.com" (Json.stringify validBodyJson) validBodyJson
    (.obj [("name", .str "hello")]) [("base", .str "https://coord.example.com")]
    (some (.obj [("message", .str "boom")])) none
    rfl rfl rfl rfl rfl rfl rfl
    (by unfold parseStub; rw [if_pos rfl])
    (Or.inl rfl) rfl rfl rfl (fun _ _ => rfl) (Or.inl rfl)

/-- C10: whenever the engine's single callback reports, without a truthy
error, a status of any kind other than `completed`, the adapter returns
the 200 suspended response — no status kind reaching this branch produces
a server error. -/
theorem c10_other_kind_maps_suspended
    (verbose : Bool) (parse : String → Except String Json)
    (engine : SessionConfig → EngineTask → EngineOutcome) (rand : String)
    (event : InvocationRequest) (p q s : String) (body t : Json)
    (hfs : List (String × Json)) (err : Option Json) (k : String) (pv : Json)
    (hm : event.method = "POST")
    (hp : lookupHeader event.headers "x-forwarded-proto" = some p) (hp0 : p.isEmpty = false)
    (hq : lookupHeader event.headers "host" = some q) (hq0 : q.isEmpty = false)
    (hb : event.body = some s) (hs : s.isEmpty = false)
    (hparse : parse s = .ok body)
    (hty : body.get "type" = some (.str "invoke") ∨ body.get "type" = some (.str "resume"))
    (htask : body.get "task" = some t) (ht : t.truthy = true)
    (hhref : body.get "href" = some (.obj hfs))
    (heng : ∀ cfg tk, engine cfg tk = ⟨err, some ⟨k, pv⟩⟩)
    (herr : optTruthy err = false)
    (hk : k ≠ "completed") :
    (httpHandler verbose parse engine rand event).response =
      ⟨200, Json.stringify (.obj
        [("status", .str "suspended"),
         ("requestUrl", .str (p ++ "://" ++ q ++ event.path.getD ""))])⟩ := by
  rw [httpHandler_valid_eq verbose parse engine rand event p q s body t hfs
    hm hp hp0 hq hq0 hb hs hparse hty htask ht hhref]
  rw [heng]
  simp [mapOutcome, herr, hk]

/-- C10 (witness): the theorem applied to a concrete valid request and an
engine whose callback reports a status of kind `claimed`. -/
theorem c10_witness :
    (httpHandler false parseStub engineOther "r" validEvent).response =
      ⟨200, Json.stringify (.obj
        [("status", .str "suspended"),
         ("requestUrl", .str "https://fn.example.com/")])⟩ :=
  c10_other_kind_maps_suspended false parseStub engineOther "r" validEvent
    "https" "fn.example.com" (Json.stringify validBodyJson) validBodyJson
    (.obj [("name", .str "hello")]) [("base", .str "https://coord.example.com")]
    none "claimed" .null
    rfl rfl rfl rfl rfl rfl rfl
    (by unfold parseStub; rw [if_pos rfl])
    (Or.inl rfl) rfl rfl rfl (fun _ _ => rfl) rfl (by decide)

end ResonateAws
